import Mathlib

/-!
# Verification of the snarcos chain-extension (`bin/runtime/src/chain_extension/mod.rs`)

A shallow embedding of the `SnarcosChainExtension` host-call bridge:
the dispatcher (`call`), the store-key handler (`snarcos_store_key`)
with its bounds guard, weight charge, single buffer read, SCALE decoding
of `StoreKeyArgs`, and the translation of `pallet_snarcos::bare_store_key`
outcomes into the four numeric result codes.

Bytes are modelled as `Nat` (real inputs are `< 256`; where a theorem needs
byte-ness it is supplied by construction or hypothesis). Machine subtraction
`u32::saturating_sub` is `Nat` truncated subtraction, which is exactly
`max 0 (a - b)`. Side effects of the contract environment (weight charging,
the single buffer read, the storage call, error logging) are recorded as an
explicit event trace so that ordering claims can be stated.
-/

namespace AlephChainExtension

/-- `pub const SNARCOS_STORE_KEY_FUNC_ID: u32 = 41;` -/
def SNARCOS_STORE_KEY_FUNC_ID : Nat := 41

/-- `pub const SNARCOS_STORE_KEY_OK: u32 = 10_000;` -/
def SNARCOS_STORE_KEY_OK : Nat := 10000

/-- `pub const SNARCOS_STORE_KEY_TOO_LONG_KEY: u32 = 10_001;` -/
def SNARCOS_STORE_KEY_TOO_LONG_KEY : Nat := 10001

/-- `pub const SNARCOS_STORE_KEY_IN_USE: u32 = 10_002;` -/
def SNARCOS_STORE_KEY_IN_USE : Nat := 10002

/-- `pub const SNARCOS_STORE_KEY_ERROR_UNKNOWN: u32 = 10_003;` -/
def SNARCOS_STORE_KEY_ERROR_UNKNOWN : Nat := 10003

/-- Modelled from the spec: `pallet_snarcos::Error` (the pallet is not part of
this crate). The handler pattern-matches exactly two named variants,
`VerificationKeyTooLong` and `IdentifierAlreadyInUse`; per the spec, "any
collaborator failure not explicitly enumerated collapses to a single catch-all
result code", so all remaining variants are modelled by `otherError` tagged
with an arbitrary code. -/
inductive SnarcosError where
  | VerificationKeyTooLong : SnarcosError
  | IdentifierAlreadyInUse : SnarcosError
  | otherError (code : Nat) : SnarcosError
deriving DecidableEq, Repr

/-- `pallet_contracts::chain_extension::RetVal` (external library type):
`Converging(u32)` completes the call normally with a numeric value the caller
inspects; `Diverging` exists in the library but is never constructed by this
extension. -/
inductive RetVal where
  | Converging (code : Nat) : RetVal
  | Diverging (flags : Nat) (data : List Nat) : RetVal
deriving DecidableEq, Repr

/-- `sp_runtime::DispatchError` (external library type); this extension only
constructs the `Other(&str)` variant, carrying a diagnostic message. -/
inductive DispatchError where
  | Other (msg : String) : DispatchError
deriving DecidableEq, Repr

/-- Observable side effects of one invocation, in the order they are
performed: `env.charge_weight(w)`, `env.read(n)` (the single buffer read),
`Snarcos::bare_store_key(identifier, key)` (the storage collaborator), and
`error!` logging of an unregistered `func_id`. -/
inductive Event where
  | chargeWeight (w : Nat) : Event
  | readBuffer (n : Nat) : Event
  | storeKey (identifier : List Nat) (key : List Nat) : Event
  | logError (funcId : Nat) : Event
deriving DecidableEq, Repr

/-- `struct StoreKeyArgs { pub identifier: VerificationKeyIdentifier, pub key: Vec<u8> }`.
`VerificationKeyIdentifier` is a fixed-width byte array (its width,
`size_of::<VerificationKeyIdentifier>()`, is a compile-time constant of the
external `pallet_snarcos`), modelled as a byte list of that width. -/
structure StoreKeyArgs where
  identifier : List Nat
  key : List Nat
deriving DecidableEq, Repr

/-! ## SCALE decoding

`StoreKeyArgs` derives `codec::Decode` (parity-scale-codec). The derived
instance decodes the fields in order: a `[u8; N]` identifier is `N` raw
bytes, and a `Vec<u8>` is a compact-encoded `u32` length followed by that
many bytes. Decoding does not require the input to be fully consumed; the
unread remainder is returned alongside the value. -/

/-- `Compact::<u32>::decode` of parity-scale-codec. The low two bits of the
first byte select the mode: `0` = single-byte value, `1` = two-byte
little-endian value shifted right by 2, `2` = four-byte little-endian value
shifted right by 2, `3` (with zero upper bits) = a further four-byte
little-endian word. Each multi-byte mode rejects values representable in a
shorter mode ("out of range"). Returns the value and the unread remainder. -/
def decodeCompactU32 : List Nat → Option (Nat × List Nat)
  | [] => none
  | b :: rest =>
    if b % 4 = 0 then
      some (b / 4, rest)
    else if b % 4 = 1 then
      match rest with
      | [] => none
      | b1 :: rest1 =>
        let x := (b + 256 * b1) / 4
        if 63 < x ∧ x ≤ 16383 then some (x, rest1) else none
    else if b % 4 = 2 then
      match rest with
      | b1 :: b2 :: b3 :: rest3 =>
        let x := (b + 256 * b1 + 65536 * b2 + 16777216 * b3) / 4
        if 16383 < x ∧ x ≤ 1073741823 then some (x, rest3) else none
      | _ => none
    else
      if b / 4 = 0 then
        match rest with
        | b0 :: b1 :: b2 :: b3 :: rest4 =>
          let x := b0 + 256 * b1 + 65536 * b2 + 16777216 * b3
          if 1073741823 < x then some (x, rest4) else none
        | _ => none
      else none

/-- `<Vec<u8>>::decode`: a compact `u32` length `n` followed by `n` bytes;
fails when fewer than `n` bytes remain. -/
def decodeVecU8 (bytes : List Nat) : Option (List Nat × List Nat) :=
  match decodeCompactU32 bytes with
  | none => none
  | some (n, rest) =>
    if n ≤ rest.length then some (rest.take n, rest.drop n) else none

/-- `StoreKeyArgs::decode`: the derived instance reads the `idSize`-byte
identifier, then the `Vec<u8>` key. -/
def StoreKeyArgs.decode (idSize : Nat) (bytes : List Nat) :
    Option (StoreKeyArgs × List Nat) :=
  if idSize ≤ bytes.length then
    match decodeVecU8 (bytes.drop idSize) with
    | some (key, r) => some (⟨bytes.take idSize, key⟩, r)
    | none => none
  else none

/-- SCALE compact encoding of a `u32` value, the inverse wire format of
`decodeCompactU32`: values up to 63 use the single-byte mode, up to 16383 the
two-byte mode, up to 2^30 - 1 the four-byte mode, and larger `u32` values the
big-integer mode with a one-word payload. Little-endian throughout. -/
def compactEncodeU32 (n : Nat) : List Nat :=
  if n ≤ 63 then
    [4 * n]
  else if n ≤ 16383 then
    [(4 * n + 1) % 256, (4 * n + 1) / 256]
  else if n ≤ 1073741823 then
    [(4 * n + 2) % 256, (4 * n + 2) / 256 % 256, (4 * n + 2) / 65536 % 256,
     (4 * n + 2) / 16777216]
  else
    [3, n % 256, n / 256 % 256, n / 65536 % 256, n / 16777216 % 256]

/-! ## The runtime configuration

The handler is generic in what the surrounding runtime supplies: the width of
`VerificationKeyIdentifier`, the `MaximumVerificationKeyLength` configuration
value, the `WeightInfo::store_key` cost function, and the
`Snarcos::bare_store_key` storage collaborator — all owned by crates outside
this one. -/

structure RuntimeConfig where
  /-- `size_of::<VerificationKeyIdentifier>()` as `ByteCount`. -/
  identifier_size : Nat
  /-- `MaximumVerificationKeyLength::get()`. -/
  MaximumVerificationKeyLength : Nat
  /-- `<<Runtime as Config>::WeightInfo as WeightInfo>::store_key`. -/
  store_key_weight_info : Nat → Nat
  /-- `Snarcos::<Runtime>::bare_store_key(identifier, key)`: the external
  storage collaborator, returning `Ok(())` or a pallet error. -/
  bare_store_key : List Nat → List Nat → Except SnarcosError Unit

/-- `fn store_key_weight(key_length: ByteCount) -> Weight`, delegating to the
runtime's `WeightInfo`. -/
def store_key_weight (cfg : RuntimeConfig) (key_length : Nat) : Nat :=
  cfg.store_key_weight_info key_length

/-! ## The handler and the dispatcher

`snarcos_store_key` returns the `Result<RetVal, DispatchError>` of the Rust
function together with the trace of environment effects it performed, in
order. `input` is the caller-supplied buffer; `env.in_len()` is its declared
length, i.e. `input.length`. -/

/-- `fn snarcos_store_key(env) -> Result<RetVal, DispatchError>`:
1. `key_length = env.in_len().saturating_sub(size_of::<VerificationKeyIdentifier>())`;
2. if `key_length > MaximumVerificationKeyLength::get()`, return
   `Ok(Converging(SNARCOS_STORE_KEY_TOO_LONG_KEY))` at once (no charge, no
   read, no storage call);
3. `env.charge_weight(store_key_weight(key_length))?`;
4. `bytes = env.read(env.in_len())?` — the single full read;
5. `StoreKeyArgs::decode(bytes)` — on failure return
   `Err(DispatchError::Other("Failed to decode arguments"))`;
6. map `bare_store_key(identifier, key)` to a result code and return it as
   `Ok(Converging(code))`. -/
def snarcos_store_key (cfg : RuntimeConfig) (input : List Nat) :
    Except DispatchError RetVal × List Event :=
  let key_length := input.length - cfg.identifier_size
  if key_length > cfg.MaximumVerificationKeyLength then
    (Except.ok (RetVal.Converging SNARCOS_STORE_KEY_TOO_LONG_KEY), [])
  else
    let chargeEv := Event.chargeWeight (store_key_weight cfg key_length)
    let readEv := Event.readBuffer input.length
    match StoreKeyArgs.decode cfg.identifier_size input with
    | none =>
      (Except.error (DispatchError.Other "Failed to decode arguments"),
       [chargeEv, readEv])
    | some (args, _) =>
      let return_status :=
        match cfg.bare_store_key args.identifier args.key with
        | Except.ok _ => SNARCOS_STORE_KEY_OK
        | Except.error SnarcosError.VerificationKeyTooLong =>
            SNARCOS_STORE_KEY_TOO_LONG_KEY
        | Except.error SnarcosError.IdentifierAlreadyInUse =>
            SNARCOS_STORE_KEY_IN_USE
        | Except.error _ => SNARCOS_STORE_KEY_ERROR_UNKNOWN
      (Except.ok (RetVal.Converging return_status),
       [chargeEv, readEv, Event.storeKey args.identifier args.key])

/-- `fn call(func_id, env)`: route `SNARCOS_STORE_KEY_FUNC_ID` to the handler;
any other identifier logs `error!("Called an unregistered func_id: ...")` and
returns `Err(DispatchError::Other("Unimplemented func_id"))`. -/
def call (cfg : RuntimeConfig) (func_id : Nat) (input : List Nat) :
    Except DispatchError RetVal × List Event :=
  if func_id = SNARCOS_STORE_KEY_FUNC_ID then
    snarcos_store_key cfg input
  else
    (Except.error (DispatchError.Other "Unimplemented func_id"),
     [Event.logError func_id])

/-! ## Concrete instances for witnesses -/

/-- Modelled from the spec: `WeightInfo::store_key` lives in `pallet_snarcos`
(not part of this crate); the spec describes it only as a "cost-estimation
function that converts a byte length into a metering unit" that is "a
monotonically non-decreasing function of `variable_length`". Modelled as an
affine cost: a base charge plus a per-byte charge. -/
def WeightInfo.store_key (key_length : Nat) : Nat :=
  41000000 + 5000 * key_length

/-- A storage collaborator that always succeeds. -/
def acceptingStore : List Nat → List Nat → Except SnarcosError Unit :=
  fun _ _ => Except.ok ()

/-- A storage collaborator that always reports `VerificationKeyTooLong`. -/
def tooLongStore : List Nat → List Nat → Except SnarcosError Unit :=
  fun _ _ => Except.error SnarcosError.VerificationKeyTooLong

/-- A storage collaborator that always reports `IdentifierAlreadyInUse`. -/
def inUseStore : List Nat → List Nat → Except SnarcosError Unit :=
  fun _ _ => Except.error SnarcosError.IdentifierAlreadyInUse

/-- A storage collaborator that always fails with an unclassified error. -/
def unknownErrorStore : List Nat → List Nat → Except SnarcosError Unit :=
  fun _ _ => Except.error (SnarcosError.otherError 7)

/-- A concrete runtime configuration used by witnesses: a 4-byte identifier
and a maximum key length of 6. -/
def exampleConfig : RuntimeConfig where
  identifier_size := 4
  MaximumVerificationKeyLength := 6
  store_key_weight_info := WeightInfo.store_key
  bare_store_key := acceptingStore

/-- The example configuration with the always-`VerificationKeyTooLong`
collaborator. -/
def tooLongConfig : RuntimeConfig :=
  { exampleConfig with bare_store_key := tooLongStore }

/-- The example configuration with the always-`IdentifierAlreadyInUse`
collaborator. -/
def inUseConfig : RuntimeConfig :=
  { exampleConfig with bare_store_key := inUseStore }

/-- The example configuration with the always-unclassified-error
collaborator. -/
def unknownErrorConfig : RuntimeConfig :=
  { exampleConfig with bare_store_key := unknownErrorStore }

example : StoreKeyArgs.decode 4 [1, 2, 3, 4, 8, 9, 10] =
    some (⟨[1, 2, 3, 4], [9, 10]⟩, []) := by decide

example : StoreKeyArgs.decode 4 [1, 2, 3, 4, 4] = none := by decide

example : (call exampleConfig 41 [1, 2, 3, 4, 0]).1 =
    Except.ok (RetVal.Converging 10000) := rfl

/-! ## Unfolding lemmas for the handler -/

/-- When the bounds guard passes and decoding fails, the handler hard-fails
after charging and reading. -/
theorem snarcos_store_key_decode_none (cfg : RuntimeConfig) (input : List Nat)
    (hguard : ¬ input.length - cfg.identifier_size >
      cfg.MaximumVerificationKeyLength)
    (hdec : StoreKeyArgs.decode cfg.identifier_size input = none) :
    snarcos_store_key cfg input =
      (Except.error (DispatchError.Other "Failed to decode arguments"),
       [Event.chargeWeight
          (store_key_weight cfg (input.length - cfg.identifier_size)),
        Event.readBuffer input.length]) := by
  simp only [snarcos_store_key]
  rw [if_neg hguard, hdec]

/-- When the bounds guard passes and decoding succeeds, the handler charges,
reads, calls the storage collaborator and translates its outcome. -/
theorem snarcos_store_key_decode_some (cfg : RuntimeConfig) (input : List Nat)
    (args : StoreKeyArgs) (rest : List Nat)
    (hguard : ¬ input.length - cfg.identifier_size >
      cfg.MaximumVerificationKeyLength)
    (hdec : StoreKeyArgs.decode cfg.identifier_size input = some (args, rest)) :
    snarcos_store_key cfg input =
      (Except.ok (RetVal.Converging
        (match cfg.bare_store_key args.identifier args.key with
         | Except.ok _ => SNARCOS_STORE_KEY_OK
         | Except.error SnarcosError.VerificationKeyTooLong =>
             SNARCOS_STORE_KEY_TOO_LONG_KEY
         | Except.error SnarcosError.IdentifierAlreadyInUse =>
             SNARCOS_STORE_KEY_IN_USE
         | Except.error _ => SNARCOS_STORE_KEY_ERROR_UNKNOWN)),
       [Event.chargeWeight
          (store_key_weight cfg (input.length - cfg.identifier_size)),
        Event.readBuffer input.length,
        Event.storeKey args.identifier args.key]) := by
  simp only [snarcos_store_key]
  rw [if_neg hguard, hdec]

/-! ## SCALE decoding lemmas -/

/-- Decoding a compact-encoded `u32` recovers the value and leaves the rest
of the input untouched. -/
theorem decodeCompactU32_encode (n : Nat) (rest : List Nat)
    (h : n < 4294967296) :
    decodeCompactU32 (compactEncodeU32 n ++ rest) = some (n, rest) := by
  by_cases h0 : n ≤ 63
  · have e1 : 4 * n % 4 = 0 := by omega
    have e2 : 4 * n / 4 = n := by omega
    simp [compactEncodeU32, decodeCompactU32, h0, e1, e2]
  · by_cases h1 : n ≤ 16383
    · have e1 : (4 * n + 1) % 256 % 4 = 1 := by omega
      have e2 : ((4 * n + 1) % 256 + 256 * ((4 * n + 1) / 256)) / 4 = n := by
        omega
      have c1 : 63 < n := by omega
      simp [compactEncodeU32, decodeCompactU32, h0, h1, e1, e2, c1]
    · by_cases h2 : n ≤ 1073741823
      · have e1 : (4 * n + 2) % 256 % 4 = 2 := by omega
        have e2 : ((4 * n + 2) % 256 + 256 * ((4 * n + 2) / 256 % 256) +
            65536 * ((4 * n + 2) / 65536 % 256) +
            16777216 * ((4 * n + 2) / 16777216)) / 4 = n := by omega
        have c1 : 16383 < n := by omega
        simp [compactEncodeU32, decodeCompactU32, h0, h1, h2, e1, e2, c1]
      · have e2 : n % 256 + 256 * (n / 256 % 256) +
            65536 * (n / 65536 % 256) +
            16777216 * (n / 16777216 % 256) = n := by omega
        have c1 : 1073741823 < n := by omega
        simp [compactEncodeU32, decodeCompactU32, h0, h1, h2, e2, c1]

/-- Decoding a compact-prefixed byte vector recovers exactly the encoded
bytes and leaves the rest untouched. -/
theorem decodeVecU8_encode (key rest : List Nat) (h : key.length < 4294967296) :
    decodeVecU8 (compactEncodeU32 key.length ++ (key ++ rest)) =
      some (key, rest) := by
  have hle : key.length ≤ (key ++ rest).length := by
    rw [List.length_append]; omega
  simp only [decodeVecU8, decodeCompactU32_encode key.length (key ++ rest) h,
    if_pos hle, List.take_append_of_le_length le_rfl,
    List.drop_append_of_le_length le_rfl, List.take_length, List.drop_length,
    List.nil_append]

/-- Round trip for the full argument struct: an `idSize`-byte identifier,
the compact length of the key, the key bytes, and arbitrary trailing bytes
decode to the pair `(identifier, key)` with the trailing bytes left over. -/
theorem StoreKeyArgs_decode_encode (idSize : Nat) (id key trailing : List Nat)
    (hid : id.length = idSize) (h : key.length < 4294967296) :
    StoreKeyArgs.decode idSize
        (id ++ compactEncodeU32 key.length ++ key ++ trailing) =
      some (⟨id, key⟩, trailing) := by
  have hle : idSize ≤ (id ++ (compactEncodeU32 key.length ++
      (key ++ trailing))).length := by
    simp [hid]
  simp only [StoreKeyArgs.decode, List.append_assoc]
  rw [if_pos hle]
  rw [← hid, List.drop_append_of_le_length le_rfl, List.drop_length,
    List.nil_append, List.take_append_of_le_length le_rfl, List.take_length]
  rw [decodeVecU8_encode key trailing h]

/-- Decoding a compact `u32` only looks at the bytes it consumes: appending
extra bytes appends them to the remainder. -/
theorem decodeCompactU32_append (bs t : List Nat) (n : Nat) (r : List Nat)
    (h : decodeCompactU32 bs = some (n, r)) :
    decodeCompactU32 (bs ++ t) = some (n, r ++ t) := by
  cases bs with
  | nil => exact absurd h (by simp [decodeCompactU32])
  | cons b rest =>
    by_cases h0 : b % 4 = 0
    · simp only [decodeCompactU32, List.cons_append, if_pos h0,
        Option.some.injEq, Prod.mk.injEq] at h ⊢
      exact ⟨h.1, by rw [h.2]⟩
    · by_cases h1 : b % 4 = 1
      · cases rest with
        | nil =>
          exact absurd h
            (by simp [decodeCompactU32, if_neg h0, if_pos h1])
        | cons b1 rest1 =>
          simp only [decodeCompactU32, List.cons_append, if_neg h0,
            if_pos h1] at h ⊢
          by_cases hx : 63 < (b + 256 * b1) / 4 ∧ (b + 256 * b1) / 4 ≤ 16383
          · rw [if_pos hx] at h ⊢
            simp only [Option.some.injEq, Prod.mk.injEq] at h ⊢
            exact ⟨h.1, by rw [h.2]⟩
          · rw [if_neg hx] at h
            exact absurd h (by simp)
      · by_cases h2 : b % 4 = 2
        · match rest with
          | [] =>
            exact absurd h
              (by simp [decodeCompactU32, if_neg h0, if_neg h1, if_pos h2])
          | [b1] =>
            exact absurd h
              (by simp [decodeCompactU32, if_neg h0, if_neg h1, if_pos h2])
          | [b1, b2] =>
            exact absurd h
              (by simp [decodeCompactU32, if_neg h0, if_neg h1, if_pos h2])
          | b1 :: b2 :: b3 :: rest3 =>
            simp only [decodeCompactU32, List.cons_append, if_neg h0,
              if_neg h1, if_pos h2] at h ⊢
            by_cases hx : 16383 < (b + 256 * b1 + 65536 * b2 +
                16777216 * b3) / 4 ∧
                (b + 256 * b1 + 65536 * b2 + 16777216 * b3) / 4 ≤ 1073741823
            · rw [if_pos hx] at h ⊢
              simp only [Option.some.injEq, Prod.mk.injEq] at h ⊢
              exact ⟨h.1, by rw [h.2]⟩
            · rw [if_neg hx] at h
              exact absurd h (by simp)
        · by_cases h3 : b / 4 = 0
          · match rest with
            | [] =>
              exact absurd h (by simp [decodeCompactU32, if_neg h0,
                if_neg h1, if_neg h2, if_pos h3])
            | [b0] =>
              exact absurd h (by simp [decodeCompactU32, if_neg h0,
                if_neg h1, if_neg h2, if_pos h3])
            | [b0, b1] =>
              exact absurd h (by simp [decodeCompactU32, if_neg h0,
                if_neg h1, if_neg h2, if_pos h3])
            | [b0, b1, b2] =>
              exact absurd h (by simp [decodeCompactU32, if_neg h0,
                if_neg h1, if_neg h2, if_pos h3])
            | b0 :: b1 :: b2 :: b3 :: rest4 =>
              simp only [decodeCompactU32, List.cons_append, if_neg h0,
                if_neg h1, if_neg h2, if_pos h3] at h ⊢
              by_cases hx : 1073741823 < b0 + 256 * b1 + 65536 * b2 +
                  16777216 * b3
              · rw [if_pos hx] at h ⊢
                simp only [Option.some.injEq, Prod.mk.injEq] at h ⊢
                exact ⟨h.1, by rw [h.2]⟩
              · rw [if_neg hx] at h
                exact absurd h (by simp)
          · exact absurd h (by simp [decodeCompactU32, if_neg h0, if_neg h1,
              if_neg h2, if_neg h3])

/-- Decoding a byte vector only looks at the bytes it consumes. -/
theorem decodeVecU8_append (bs t : List Nat) (v r : List Nat)
    (h : decodeVecU8 bs = some (v, r)) :
    decodeVecU8 (bs ++ t) = some (v, r ++ t) := by
  cases hc : decodeCompactU32 bs with
  | none => simp [decodeVecU8, hc] at h
  | some p =>
    obtain ⟨n, rest⟩ := p
    simp only [decodeVecU8, hc] at h
    by_cases hn : n ≤ rest.length
    · rw [if_pos hn] at h
      simp only [Option.some.injEq, Prod.mk.injEq] at h
      have hn2 : n ≤ (rest ++ t).length := by
        rw [List.length_append]; omega
      simp only [decodeVecU8, decodeCompactU32_append bs t n rest hc,
        if_pos hn2, List.take_append_of_le_length hn,
        List.drop_append_of_le_length hn, Option.some.injEq, Prod.mk.injEq]
      exact ⟨h.1, by rw [h.2]⟩
    · rw [if_neg hn] at h
      exact absurd h (by simp)

/-- Decoding `StoreKeyArgs` only looks at the bytes it consumes. -/
theorem StoreKeyArgs_decode_append (idSize : Nat) (bs t : List Nat)
    (args : StoreKeyArgs) (r : List Nat)
    (h : StoreKeyArgs.decode idSize bs = some (args, r)) :
    StoreKeyArgs.decode idSize (bs ++ t) = some (args, r ++ t) := by
  simp only [StoreKeyArgs.decode] at h ⊢
  by_cases hle : idSize ≤ bs.length
  · rw [if_pos hle] at h
    rw [if_pos (by simp; omega)]
    rw [List.take_append_of_le_length hle,
      List.drop_append_of_le_length hle]
    cases hv : decodeVecU8 (bs.drop idSize) with
    | none => rw [hv] at h; exact absurd h (by simp)
    | some q =>
      rw [hv] at h
      rw [decodeVecU8_append (bs.drop idSize) t q.1 q.2 (by rw [hv])]
      simp only [Option.some.injEq, Prod.mk.injEq] at h ⊢
      exact ⟨h.1, by rw [← h.2]⟩
  · rw [if_neg hle] at h
    exact absurd h (by simp)

/-! ## Claim theorems -/

/-- C1: the bounds guard rejects exactly when `variable_length`
(`in_len` saturating-minus the identifier width) exceeds
`MaximumVerificationKeyLength`: above the bound the handler returns the
converging code `KEY_TOO_LONG` with an empty effect trace (no weight charge,
no buffer read, no storage call); at exactly the bound the call proceeds past
the guard, charging and reading (the boundary is inclusive). -/
theorem C1_bounds_guard (cfg : RuntimeConfig) (input : List Nat) :
    (input.length - cfg.identifier_size > cfg.MaximumVerificationKeyLength →
      snarcos_store_key cfg input =
        (Except.ok (RetVal.Converging SNARCOS_STORE_KEY_TOO_LONG_KEY), [])) ∧
    (input.length - cfg.identifier_size = cfg.MaximumVerificationKeyLength →
      ∃ t, (snarcos_store_key cfg input).2 =
        Event.chargeWeight
            (store_key_weight cfg (input.length - cfg.identifier_size)) ::
          Event.readBuffer input.length :: t) := by
  constructor
  · intro h
    simp only [snarcos_store_key]
    rw [if_pos h]
  · intro h
    have hn : ¬ input.length - cfg.identifier_size >
        cfg.MaximumVerificationKeyLength := by omega
    cases hdec : StoreKeyArgs.decode cfg.identifier_size input with
    | none =>
      rw [snarcos_store_key_decode_none cfg input hn hdec]
      exact ⟨[], rfl⟩
    | some p =>
      rw [snarcos_store_key_decode_some cfg input p.1 p.2 hn (by rw [hdec])]
      exact ⟨[Event.storeKey p.1.identifier p.1.key], rfl⟩

/-- An input of 11 bytes against the example configuration (identifier width
4, maximum key length 6) trips the guard; an input of 10 bytes sits exactly
at the bound and proceeds past the guard. -/
theorem C1_bounds_guard_witness :
    (([0, 0, 0, 0, 0, 0, 0, 0, 0, 0, 0] : List Nat).length -
          exampleConfig.identifier_size >
        exampleConfig.MaximumVerificationKeyLength ∧
      snarcos_store_key exampleConfig [0, 0, 0, 0, 0, 0, 0, 0, 0, 0, 0] =
        (Except.ok (RetVal.Converging SNARCOS_STORE_KEY_TOO_LONG_KEY), [])) ∧
    (([0, 0, 0, 0, 0, 0, 0, 0, 0, 0] : List Nat).length -
          exampleConfig.identifier_size =
        exampleConfig.MaximumVerificationKeyLength ∧
      ∃ t, (snarcos_store_key exampleConfig
            [0, 0, 0, 0, 0, 0, 0, 0, 0, 0]).2 =
        Event.chargeWeight
            (store_key_weight exampleConfig
              (([0, 0, 0, 0, 0, 0, 0, 0, 0, 0] : List Nat).length -
                exampleConfig.identifier_size)) ::
          Event.readBuffer ([0, 0, 0, 0, 0, 0, 0, 0, 0, 0] : List Nat).length ::
            t) :=
  ⟨⟨by decide,
    (C1_bounds_guard exampleConfig [0, 0, 0, 0, 0, 0, 0, 0, 0, 0, 0]).1
      (by decide)⟩,
   ⟨by decide,
    (C1_bounds_guard exampleConfig [0, 0, 0, 0, 0, 0, 0, 0, 0, 0]).2
      (by decide)⟩⟩

/-- C3: whenever the guard passes, the weight charge for `variable_length` is
the first effect, strictly before the single buffer read (and hence before
any decode attempt, which operates on the bytes that read returns); the
charge is in the trace regardless of how the rest of the call ends, so a
decode failure does not undo it. -/
theorem C3_charge_before_read (cfg : RuntimeConfig) (input : List Nat)
    (hguard : input.length - cfg.identifier_size ≤
      cfg.MaximumVerificationKeyLength) :
    (∃ t, (snarcos_store_key cfg input).2 =
      Event.chargeWeight
          (store_key_weight cfg (input.length - cfg.identifier_size)) ::
        Event.readBuffer input.length :: t) ∧
    Event.chargeWeight
        (store_key_weight cfg (input.length - cfg.identifier_size)) ∈
      (snarcos_store_key cfg input).2 := by
  have hn : ¬ input.length - cfg.identifier_size >
      cfg.MaximumVerificationKeyLength := by omega
  have hshape : ∃ t, (snarcos_store_key cfg input).2 =
      Event.chargeWeight
          (store_key_weight cfg (input.length - cfg.identifier_size)) ::
        Event.readBuffer input.length :: t := by
    cases hdec : StoreKeyArgs.decode cfg.identifier_size input with
    | none =>
      rw [snarcos_store_key_decode_none cfg input hn hdec]
      exact ⟨[], rfl⟩
    | some p =>
      rw [snarcos_store_key_decode_some cfg input p.1 p.2 hn (by rw [hdec])]
      exact ⟨[Event.storeKey p.1.identifier p.1.key], rfl⟩
  refine ⟨hshape, ?_⟩
  obtain ⟨t, ht⟩ := hshape
  rw [ht]
  exact List.mem_cons_self _ _

/-- The 5-byte input `[0, 0, 0, 0, 4]` passes the guard of the example
configuration (variable length 1 ≤ 6) yet fails to decode; the charge still
comes first and stays in the trace. -/
theorem C3_charge_before_read_witness :
    ([0, 0, 0, 0, 4] : List Nat).length - exampleConfig.identifier_size ≤
        exampleConfig.MaximumVerificationKeyLength ∧
      ((∃ t, (snarcos_store_key exampleConfig [0, 0, 0, 0, 4]).2 =
        Event.chargeWeight
            (store_key_weight exampleConfig
              (([0, 0, 0, 0, 4] : List Nat).length -
                exampleConfig.identifier_size)) ::
          Event.readBuffer ([0, 0, 0, 0, 4] : List Nat).length :: t) ∧
      Event.chargeWeight
          (store_key_weight exampleConfig
            (([0, 0, 0, 0, 4] : List Nat).length -
              exampleConfig.identifier_size)) ∈
        (snarcos_store_key exampleConfig [0, 0, 0, 0, 4]).2) :=
  ⟨by decide, C3_charge_before_read exampleConfig [0, 0, 0, 0, 4] (by decide)⟩

/-- C4: an input whose variable length passes the guard but whose bytes fail
structural decoding makes the call return the hard failure
`Err(DispatchError::Other("Failed to decode arguments"))` — not a result
code — with the trace showing the weight charge (already applied) and the
buffer read, and no storage-collaborator event. -/
theorem C4_decode_failure_hard_fails (cfg : RuntimeConfig) (input : List Nat)
    (hguard : input.length - cfg.identifier_size ≤
      cfg.MaximumVerificationKeyLength)
    (hdec : StoreKeyArgs.decode cfg.identifier_size input = none) :
    snarcos_store_key cfg input =
      (Except.error (DispatchError.Other "Failed to decode arguments"),
       [Event.chargeWeight
          (store_key_weight cfg (input.length - cfg.identifier_size)),
        Event.readBuffer input.length]) :=
  snarcos_store_key_decode_none cfg input (by omega) hdec

/-- The input `[0, 0, 0, 0, 4]` passes the guard (variable length 1 ≤ 6) but
its key part is a compact length prefix announcing one byte with none
following, so decode fails and the call hard-fails after the charge. -/
theorem C4_decode_failure_hard_fails_witness :
    ([0, 0, 0, 0, 4] : List Nat).length - exampleConfig.identifier_size ≤
        exampleConfig.MaximumVerificationKeyLength ∧
      StoreKeyArgs.decode exampleConfig.identifier_size [0, 0, 0, 0, 4] =
        none ∧
      snarcos_store_key exampleConfig [0, 0, 0, 0, 4] =
        (Except.error (DispatchError.Other "Failed to decode arguments"),
         [Event.chargeWeight
            (store_key_weight exampleConfig
              (([0, 0, 0, 0, 4] : List Nat).length -
                exampleConfig.identifier_size)),
          Event.readBuffer ([0, 0, 0, 0, 4] : List Nat).length]) :=
  ⟨by decide, by decide,
   C4_decode_failure_hard_fails exampleConfig [0, 0, 0, 0, 4] (by decide)
     (by decide)⟩

/-- C6: when the declared total length is below the identifier width, the
saturating subtraction makes `variable_length` exactly zero (`Nat`
subtraction is `max 0 (a - b)`, matching `u32::saturating_sub`), so the guard
always passes and the call charges the weight for length zero. -/
theorem C6_saturating_sub_zero (cfg : RuntimeConfig) (input : List Nat)
    (h : input.length < cfg.identifier_size) :
    input.length - cfg.identifier_size = 0 ∧
    ∃ t, (snarcos_store_key cfg input).2 =
      Event.chargeWeight (store_key_weight cfg 0) ::
        Event.readBuffer input.length :: t := by
  have hz : input.length - cfg.identifier_size = 0 := by omega
  refine ⟨hz, ?_⟩
  have hn : ¬ input.length - cfg.identifier_size >
      cfg.MaximumVerificationKeyLength := by omega
  cases hdec : StoreKeyArgs.decode cfg.identifier_size input with
  | none =>
    rw [snarcos_store_key_decode_none cfg input hn hdec, hz]
    exact ⟨[], rfl⟩
  | some p =>
    rw [snarcos_store_key_decode_some cfg input p.1 p.2 hn (by rw [hdec]), hz]
    exact ⟨[Event.storeKey p.1.identifier p.1.key], rfl⟩

/-- The empty input (0 bytes, below the 4-byte identifier width of the
example configuration) yields `variable_length = 0`, passes the guard and is
charged the weight for length zero. -/
theorem C6_saturating_sub_zero_witness :
    ([] : List Nat).length < exampleConfig.identifier_size ∧
      (([] : List Nat).length - exampleConfig.identifier_size = 0 ∧
      ∃ t, (snarcos_store_key exampleConfig []).2 =
        Event.chargeWeight (store_key_weight exampleConfig 0) ::
          Event.readBuffer ([] : List Nat).length :: t) :=
  ⟨by decide, C6_saturating_sub_zero exampleConfig [] (by decide)⟩

/-- C7: any function identifier other than `SNARCOS_STORE_KEY_FUNC_ID = 41`
makes the dispatcher return the hard failure
`Err(DispatchError::Other("Unimplemented func_id"))`; the only effect is the
`error!` log of the event — no weight charge, no buffer read, no storage
call. -/
theorem C7_unknown_func_id (cfg : RuntimeConfig) (func_id : Nat)
    (input : List Nat) (h : func_id ≠ SNARCOS_STORE_KEY_FUNC_ID) :
    call cfg func_id input =
      (Except.error (DispatchError.Other "Unimplemented func_id"),
       [Event.logError func_id]) := by
  simp only [call]
  rw [if_neg h]

/-- Function identifier 42 is not the registered one; the call hard-fails and
only logs. -/
theorem C7_unknown_func_id_witness :
    (42 : Nat) ≠ SNARCOS_STORE_KEY_FUNC_ID ∧
      call exampleConfig 42 [1, 2, 3] =
        (Except.error (DispatchError.Other "Unimplemented func_id"),
         [Event.logError 42]) :=
  ⟨by decide, C7_unknown_func_id exampleConfig 42 [1, 2, 3] (by decide)⟩

/-- C2: for every call that reaches the storage collaborator (guard passed,
decode succeeded), its outcome is translated to exactly one of the four
codes — `Ok` ↦ OK, `VerificationKeyTooLong` ↦ KEY_TOO_LONG,
`IdentifierAlreadyInUse` ↦ IDENTIFIER_IN_USE, every other error ↦
UNKNOWN_ERROR — and the call returns that code as `Ok(Converging(code))`,
never a hard failure. -/
theorem C2_outcome_translation (cfg : RuntimeConfig) (input : List Nat)
    (args : StoreKeyArgs) (rest : List Nat)
    (hguard : input.length - cfg.identifier_size ≤
      cfg.MaximumVerificationKeyLength)
    (hdec : StoreKeyArgs.decode cfg.identifier_size input = some (args, rest)) :
    (cfg.bare_store_key args.identifier args.key = Except.ok () →
      (snarcos_store_key cfg input).1 =
        Except.ok (RetVal.Converging SNARCOS_STORE_KEY_OK)) ∧
    (cfg.bare_store_key args.identifier args.key =
        Except.error SnarcosError.VerificationKeyTooLong →
      (snarcos_store_key cfg input).1 =
        Except.ok (RetVal.Converging SNARCOS_STORE_KEY_TOO_LONG_KEY)) ∧
    (cfg.bare_store_key args.identifier args.key =
        Except.error SnarcosError.IdentifierAlreadyInUse →
      (snarcos_store_key cfg input).1 =
        Except.ok (RetVal.Converging SNARCOS_STORE_KEY_IN_USE)) ∧
    (∀ e : SnarcosError, e ≠ SnarcosError.VerificationKeyTooLong →
      e ≠ SnarcosError.IdentifierAlreadyInUse →
      cfg.bare_store_key args.identifier args.key = Except.error e →
      (snarcos_store_key cfg input).1 =
        Except.ok (RetVal.Converging SNARCOS_STORE_KEY_ERROR_UNKNOWN)) := by
  have hmain := snarcos_store_key_decode_some cfg input args rest (by omega) hdec
  refine ⟨?_, ?_, ?_, ?_⟩
  · intro hs
    rw [hmain]
    simp only [hs]
  · intro hs
    rw [hmain]
    simp only [hs]
  · intro hs
    rw [hmain]
    simp only [hs]
  · intro e he1 he2 hs
    rw [hmain]
    cases e with
    | VerificationKeyTooLong => exact absurd rfl he1
    | IdentifierAlreadyInUse => exact absurd rfl he2
    | otherError code => simp only [hs]

/-- Four runtimes differing only in the storage collaborator outcome
(success, too-long, in-use, an unclassified error), all called on the same
decodable input `[1, 2, 3, 4, 4, 9]`, receive the four respective codes. -/
theorem C2_outcome_translation_witness :
    (snarcos_store_key exampleConfig [1, 2, 3, 4, 4, 9]).1 =
        Except.ok (RetVal.Converging SNARCOS_STORE_KEY_OK) ∧
      (snarcos_store_key tooLongConfig [1, 2, 3, 4, 4, 9]).1 =
        Except.ok (RetVal.Converging SNARCOS_STORE_KEY_TOO_LONG_KEY) ∧
      (snarcos_store_key inUseConfig [1, 2, 3, 4, 4, 9]).1 =
        Except.ok (RetVal.Converging SNARCOS_STORE_KEY_IN_USE) ∧
      (snarcos_store_key unknownErrorConfig [1, 2, 3, 4, 4, 9]).1 =
        Except.ok (RetVal.Converging SNARCOS_STORE_KEY_ERROR_UNKNOWN) :=
  ⟨(C2_outcome_translation exampleConfig [1, 2, 3, 4, 4, 9]
      ⟨[1, 2, 3, 4], [9]⟩ [] (by decide) (by decide)).1 rfl,
   (C2_outcome_translation tooLongConfig [1, 2, 3, 4, 4, 9]
      ⟨[1, 2, 3, 4], [9]⟩ [] (by decide) (by decide)).2.1 rfl,
   (C2_outcome_translation inUseConfig [1, 2, 3, 4, 4, 9]
      ⟨[1, 2, 3, 4], [9]⟩ [] (by decide) (by decide)).2.2.1 rfl,
   (C2_outcome_translation unknownErrorConfig [1, 2, 3, 4, 4, 9]
      ⟨[1, 2, 3, 4], [9]⟩ [] (by decide) (by decide)).2.2.2
      (SnarcosError.otherError 7) (by decide) (by decide) rfl⟩

/-- C8: whenever the dispatcher returns a converging result, the code is one
of the four constants 10000, 10001, 10002, 10003. -/
theorem C8_four_result_codes (cfg : RuntimeConfig) (func_id : Nat)
    (input : List Nat) (code : Nat)
    (h : (call cfg func_id input).1 = Except.ok (RetVal.Converging code)) :
    code = SNARCOS_STORE_KEY_OK ∨ code = SNARCOS_STORE_KEY_TOO_LONG_KEY ∨
      code = SNARCOS_STORE_KEY_IN_USE ∨
      code = SNARCOS_STORE_KEY_ERROR_UNKNOWN := by
  by_cases hf : func_id = SNARCOS_STORE_KEY_FUNC_ID
  · simp only [call, if_pos hf] at h
    by_cases hguard : input.length - cfg.identifier_size >
        cfg.MaximumVerificationKeyLength
    · simp only [snarcos_store_key, if_pos hguard] at h
      simp only [Except.ok.injEq, RetVal.Converging.injEq] at h
      exact Or.inr (Or.inl h.symm)
    · cases hdec : StoreKeyArgs.decode cfg.identifier_size input with
      | none =>
        rw [snarcos_store_key_decode_none cfg input hguard hdec] at h
        exact absurd h (by simp)
      | some p =>
        rw [snarcos_store_key_decode_some cfg input p.1 p.2 hguard
          (by rw [hdec])] at h
        simp only [Except.ok.injEq, RetVal.Converging.injEq] at h
        cases hs : cfg.bare_store_key p.1.identifier p.1.key with
        | ok u => rw [hs] at h; exact Or.inl h.symm
        | error e =>
          cases e with
          | VerificationKeyTooLong =>
            rw [hs] at h; exact Or.inr (Or.inl h.symm)
          | IdentifierAlreadyInUse =>
            rw [hs] at h; exact Or.inr (Or.inr (Or.inl h.symm))
          | otherError c =>
            rw [hs] at h; exact Or.inr (Or.inr (Or.inr h.symm))
  · simp only [call, if_neg hf] at h
    exact absurd h (by simp)

/-- A successful store-key call returning OK exercises the invariant. -/
theorem C8_four_result_codes_witness :
    (call exampleConfig 41 [1, 2, 3, 4, 0]).1 =
        Except.ok (RetVal.Converging 10000) ∧
      ((10000 : Nat) = SNARCOS_STORE_KEY_OK ∨
        10000 = SNARCOS_STORE_KEY_TOO_LONG_KEY ∨
        10000 = SNARCOS_STORE_KEY_IN_USE ∨
        10000 = SNARCOS_STORE_KEY_ERROR_UNKNOWN) :=
  ⟨rfl, C8_four_result_codes exampleConfig 41 [1, 2, 3, 4, 0] 10000 rfl⟩

/-- C9: the weight charged for a store-key call is monotonically
non-decreasing in `variable_length`: for any runtime whose `WeightInfo` is
the modelled cost-estimation function, `len1 < len2` implies
`charge(len1) ≤ charge(len2)`. -/
theorem C9_weight_monotone (cfg : RuntimeConfig) (len1 len2 : Nat)
    (hcfg : cfg.store_key_weight_info = WeightInfo.store_key)
    (h : len1 < len2) :
    store_key_weight cfg len1 ≤ store_key_weight cfg len2 := by
  simp only [store_key_weight, hcfg, WeightInfo.store_key]
  omega

/-- C5 counterexample: the claim says every buffer of at least the
identifier width whose remainder is within the length bound decodes
successfully, with the key equal to exactly the bytes after the identifier.
The 5-byte buffer `[0, 0, 0, 0, 4]` has at least the 4-byte identifier width
and a 1-byte remainder (within the bound 6), yet decoding fails — SCALE
reads the remainder as a compact length prefix announcing one key byte with
none following — so the call hard-fails instead of proceeding. -/
theorem C5_wire_format_counterexample :
    exampleConfig.identifier_size ≤ ([0, 0, 0, 0, 4] : List Nat).length ∧
      ([0, 0, 0, 0, 4] : List Nat).length - exampleConfig.identifier_size ≤
        exampleConfig.MaximumVerificationKeyLength ∧
      StoreKeyArgs.decode exampleConfig.identifier_size [0, 0, 0, 0, 4] =
        none ∧
      (snarcos_store_key exampleConfig [0, 0, 0, 0, 4]).1 =
        Except.error (DispatchError.Other "Failed to decode arguments") :=
  ⟨by decide, by decide, by decide, rfl⟩

/-- C5 (amended): the wire format is the fixed-width identifier followed by
a SCALE compact-encoded key length and then exactly that many key bytes —
the length is carried by an explicit prefix, not implied by the buffer
boundary. Every buffer of that shape (identifier ++ compact(len key) ++ key
++ trailing, with the variable part within the length bound) decodes
successfully with the key equal to exactly the prefixed bytes, and the call
proceeds to a converging result code. -/
theorem C5_wire_format_amended (cfg : RuntimeConfig)
    (id key trailing : List Nat) (hid : id.length = cfg.identifier_size)
    (hkey : key.length < 4294967296)
    (hbound : (id ++ compactEncodeU32 key.length ++ key ++ trailing).length -
        cfg.identifier_size ≤ cfg.MaximumVerificationKeyLength) :
    StoreKeyArgs.decode cfg.identifier_size
        (id ++ compactEncodeU32 key.length ++ key ++ trailing) =
      some (⟨id, key⟩, trailing) ∧
    ∃ code, (snarcos_store_key cfg
        (id ++ compactEncodeU32 key.length ++ key ++ trailing)).1 =
      Except.ok (RetVal.Converging code) := by
  have hdec := StoreKeyArgs_decode_encode cfg.identifier_size id key trailing
    hid hkey
  refine ⟨hdec, ?_⟩
  rw [snarcos_store_key_decode_some cfg _ ⟨id, key⟩ trailing (by omega) hdec]
  exact ⟨_, rfl⟩

/-- The buffer `[1, 2, 3, 4] ++ compact(2) ++ [9, 8] ++ [5]` decodes to the
identifier `[1, 2, 3, 4]` and the key `[9, 8]`, and the call converges. -/
theorem C5_wire_format_amended_witness :
    ([1, 2, 3, 4] : List Nat).length = exampleConfig.identifier_size ∧
      (StoreKeyArgs.decode exampleConfig.identifier_size
          ([1, 2, 3, 4] ++ compactEncodeU32 ([9, 8] : List Nat).length ++
            [9, 8] ++ [5]) = some (⟨[1, 2, 3, 4], [9, 8]⟩, [5]) ∧
        ∃ code, (snarcos_store_key exampleConfig
            ([1, 2, 3, 4] ++ compactEncodeU32 ([9, 8] : List Nat).length ++
              [9, 8] ++ [5])).1 = Except.ok (RetVal.Converging code)) :=
  ⟨by decide, C5_wire_format_amended exampleConfig [1, 2, 3, 4] [9, 8] [5]
    (by decide) (by decide) (by decide)⟩

/-- C10: the decoder does not require the input to be fully consumed. If a
prefix decodes exactly to `(identifier, key)` and the whole buffer (prefix
plus trailing bytes) is still within the length bound, decoding the whole
buffer succeeds with the trailing bytes silently ignored (returned as the
unread remainder), and the call invokes the storage collaborator and returns
a converging result code rather than hard-failing. -/
theorem C10_trailing_bytes_ignored (cfg : RuntimeConfig) (p t : List Nat)
    (args : StoreKeyArgs)
    (hp : StoreKeyArgs.decode cfg.identifier_size p = some (args, []))
    (hbound : (p ++ t).length - cfg.identifier_size ≤
      cfg.MaximumVerificationKeyLength) :
    StoreKeyArgs.decode cfg.identifier_size (p ++ t) = some (args, t) ∧
    (∃ code, (snarcos_store_key cfg (p ++ t)).1 =
      Except.ok (RetVal.Converging code)) ∧
    Event.storeKey args.identifier args.key ∈
      (snarcos_store_key cfg (p ++ t)).2 := by
  have hdec : StoreKeyArgs.decode cfg.identifier_size (p ++ t) =
      some (args, t) := by
    have happ := StoreKeyArgs_decode_append cfg.identifier_size p t args [] hp
    simpa using happ
  refine ⟨hdec, ?_, ?_⟩
  · rw [snarcos_store_key_decode_some cfg (p ++ t) args t (by omega) hdec]
    exact ⟨_, rfl⟩
  · rw [snarcos_store_key_decode_some cfg (p ++ t) args t (by omega) hdec]
    simp

/-- The prefix `[1, 2, 3, 4, 4, 9]` decodes exactly to the identifier
`[1, 2, 3, 4]` and key `[9]`; with trailing bytes `[7, 7]` appended the call
still decodes, stores and converges. -/
theorem C10_trailing_bytes_ignored_witness :
    StoreKeyArgs.decode exampleConfig.identifier_size [1, 2, 3, 4, 4, 9] =
        some (⟨[1, 2, 3, 4], [9]⟩, []) ∧
      (StoreKeyArgs.decode exampleConfig.identifier_size
          ([1, 2, 3, 4, 4, 9] ++ [7, 7]) =
          some (⟨[1, 2, 3, 4], [9]⟩, [7, 7]) ∧
        (∃ code, (snarcos_store_key exampleConfig
            ([1, 2, 3, 4, 4, 9] ++ [7, 7])).1 =
          Except.ok (RetVal.Converging code)) ∧
        Event.storeKey [1, 2, 3, 4] [9] ∈
          (snarcos_store_key exampleConfig ([1, 2, 3, 4, 4, 9] ++ [7, 7])).2) :=
  ⟨by decide, C10_trailing_bytes_ignored exampleConfig [1, 2, 3, 4, 4, 9]
    [7, 7] ⟨[1, 2, 3, 4], [9]⟩ (by decide) (by decide)⟩

/-- Lengths 3 < 5 under the example configuration. -/
theorem C9_weight_monotone_witness :
    exampleConfig.store_key_weight_info = WeightInfo.store_key ∧
      (3 : Nat) < 5 ∧
      store_key_weight exampleConfig 3 ≤ store_key_weight exampleConfig 5 :=
  ⟨rfl, by decide, C9_weight_monotone exampleConfig 3 5 rfl (by decide)⟩

end AlephChainExtension
